import Mathlib

/-!
Verification development for the BioVentureRx rNPV explorer (src/app2.py).

The app loads a tabular drug-valuation dataset (an uploaded CSV or a
built-in single-record default), validates the column set, lets the user
pick a drug and a development phase, derives a per-phase comparison table
with a percent-drop column, renders either a grouped all-phases chart or
a two-bar single-phase chart, and offers the loaded table for download
as CSV.

The embedding below follows the script line by line.  A cell value is
either a string or a rational number (CSV numerics are modelled as ℚ; the
script only ever adds, subtracts, divides and scales them).  A row is an
association list from column name to value, mirroring pandas label-based
row indexing; a table is its column list together with its rows.  The
plotly figure is modelled by the data its traces carry: the grouped chart
keeps the phase labels and the three y-series, the single-phase chart
keeps the pre/post pair of the selected phase.  Cosmetic attributes (colours,
titles, text formatting of the percent labels) carry no data beyond what
the modelled fields determine and are omitted.  Fallible steps of the
script (`st.stop()` after a failed validation, `.iloc[0]` / `.values[0]`
on an empty selection) are modelled with `Except`/`Option`.
-/

/-- A cell value of the dataframe: a string or a numeric entry. -/
inductive Value where
  | str : String → Value
  | num : ℚ → Value
deriving DecidableEq, Repr

/-- Numeric view of a cell, as used by the arithmetic in the plot loop. -/
def Value.toRat : Value → ℚ
  | .str _ => 0
  | .num q => q

/-- A dataframe row: an association list from column name to cell value. -/
def Row : Type := List (String × Value)

instance : DecidableEq Row := by
  unfold Row
  infer_instance

/-- Label-based cell lookup, `drug_row[col]` in the script. -/
def Row.get (r : Row) (c : String) : Value :=
  (((r.find? (fun p => p.1 = c)).map Prod.snd)).getD (Value.str "")

/-- A dataframe: its column list and its rows. -/
structure Table where
  columns : List String
  rows : List Row
deriving DecidableEq

/-- The 18 required columns (`expected_columns` in src/app2.py). -/
def expected_columns : List String :=
  ["Drug", "Approval Year", "Molecule Type", "Indication",
   "Market_Pre_IRA", "Market_Post_IRA",
   "Filing_Pre_IRA", "Filing_Post_IRA",
   "Phase 3_Pre_IRA", "Phase 3_Post_IRA",
   "Phase 2_Pre_IRA", "Phase 2_Post_IRA",
   "Phase 1_Pre_IRA", "Phase 1_Post_IRA",
   "PC_Pre_IRA", "PC_Post_IRA",
   "Seed_Pre_IRA", "Seed_Post_IRA"]

/-- The built-in default record (the `data` dict in src/app2.py). -/
def entrestoRow : Row :=
  [("Drug", Value.str "Entresto"),
   ("Approval Year", Value.num 2015),
   ("Molecule Type", Value.str "Small Molecule"),
   ("Indication", Value.str "Heart Failure"),
   ("Market_Pre_IRA", Value.num 2976), ("Market_Post_IRA", Value.num 1782),
   ("Filing_Pre_IRA", Value.num 2262), ("Filing_Post_IRA", Value.num 1355),
   ("Phase 3_Pre_IRA", Value.num 1105), ("Phase 3_Post_IRA", Value.num 618),
   ("Phase 2_Pre_IRA", Value.num 272), ("Phase 2_Post_IRA", Value.num 133),
   ("Phase 1_Pre_IRA", Value.num 82), ("Phase 1_Post_IRA", Value.num 16),
   ("PC_Pre_IRA", Value.num 32), ("PC_Post_IRA", Value.num (-34)),
   ("Seed_Pre_IRA", Value.num 7), ("Seed_Post_IRA", Value.num (-59))]

/-- The default dataframe `pd.DataFrame(data)`: the single Entresto record. -/
def defaultDf : Table :=
  { columns := expected_columns, rows := [entrestoRow] }

/-- The validation error message shown by `st.error` in src/app2.py. -/
def errMsg : String :=
  "Uploaded file missing required columns. Please use the provided template."

/-- The load step: an uploaded table is accepted iff every expected column
is present (`all(col in df.columns for col in expected_columns)`);
otherwise the script shows `errMsg` and stops.  With no upload the
default Entresto dataframe is used. -/
def loadTable : Option Table → Except String Table
  | some df =>
      if expected_columns.all (fun col => df.columns.contains col) then
        Except.ok df
      else
        Except.error errMsg
  | none => Except.ok defaultDf

/-- `phases_order` in src/app2.py. -/
def phases_order : List String :=
  ["Market", "Filing", "Phase 3", "Phase 2", "Phase 1", "PC", "Seed"]

/-- Helper for `uniqueFirst`: keeps elements not seen before. -/
def uniqueFirstAux (seen : List Value) : List Value → List Value
  | [] => []
  | x :: xs =>
      if x ∈ seen then uniqueFirstAux seen xs
      else x :: uniqueFirstAux (x :: seen) xs

/-- The drug selector options `df["Drug"].unique()`: first occurrences,
in order of appearance. -/
def uniqueFirst (l : List Value) : List Value :=
  uniqueFirstAux [] l

/-- The options of the drug selectbox. -/
def Table.drugOptions (t : Table) : List Value :=
  uniqueFirst (t.rows.map (fun r => r.get "Drug"))

/-- `df[df["Drug"] == selected_drug].iloc[0]`: the first row whose Drug
cell equals the selection; `none` models the IndexError `.iloc[0]`
raises on an empty selection. -/
def selectDrugRow (t : Table) (drug : Value) : Option Row :=
  (t.rows.filter (fun r => r.get "Drug" = drug)).head?

/-- One derived comparison row of `plot_data`:
`{"Phase": phase, "Pre-IRA": pre, "Post-IRA": post, "% Drop": drop}`. -/
structure PlotRow where
  phase : String
  pre : ℚ
  post : ℚ
  drop : ℚ
deriving DecidableEq, Repr

/-- The guarded percent computation
`(pre - post) / pre * 100 if pre != 0 else 0`. -/
def dropCalc (pre post : ℚ) : ℚ :=
  if pre ≠ 0 then (pre - post) / pre * 100 else 0

/-- The pre-value the loop reads: `drug_row[f"{phase}_Pre_IRA"]`. -/
def rowPre (r : Row) (phase : String) : ℚ :=
  (r.get (phase ++ "_Pre_IRA")).toRat

/-- The post-value the loop reads: `drug_row[f"{phase}_Post_IRA"]`. -/
def rowPost (r : Row) (phase : String) : ℚ :=
  (r.get (phase ++ "_Post_IRA")).toRat

/-- The `plot_data` loop: one derived row per phase of `phases_order`. -/
def plot_data (drug_row : Row) : List PlotRow :=
  phases_order.map (fun phase =>
    { phase := phase
      pre := rowPre drug_row phase
      post := rowPost drug_row phase
      drop := dropCalc (rowPre drug_row phase) (rowPost drug_row phase) })

/-- The data carried by the rendered figure.  `allPhases` keeps the bar
x-labels, the two bar y-series and the scatter y-series `-plot_df["% Drop"]`
of the grouped chart; `singlePhase` keeps the pre/post pair
`[phase_df["Pre-IRA"].values[0], phase_df["Post-IRA"].values[0]]` of the
two-bar chart. -/
inductive Chart where
  | allPhases (x : List String) (preY : List ℚ) (postY : List ℚ)
      (dropY : List ℚ) : Chart
  | singlePhase (pre post : ℚ) : Chart
deriving DecidableEq, Repr

/-- The two mutually exclusive plotting branches.  In the single-phase
branch, `none` models the IndexError `.values[0]` raises when the filtered
frame is empty. -/
def buildChart (plot_df : List PlotRow) (selected_phase : String) :
    Option Chart :=
  if selected_phase = "All Phases" then
    some (Chart.allPhases (plot_df.map (fun pr => pr.phase))
      (plot_df.map (fun pr => pr.pre))
      (plot_df.map (fun pr => pr.post))
      (plot_df.map (fun pr => -pr.drop)))
  else
    match (plot_df.filter (fun pr => pr.phase = selected_phase)).head? with
    | some pr => some (Chart.singlePhase pr.pre pr.post)
    | none => none

/-- Rendering of a cell in the exported CSV. -/
def Value.render : Value → String
  | .str s => s
  | .num q => if q.den = 1 then toString q.num else toString q

/-- One CSV line of a row, cells in column order, comma-separated. -/
def Row.renderCells (cols : List String) (r : Row) : String :=
  String.intercalate "," (cols.map (fun c => (r.get c).render))

/-- `df.to_csv(index=False)`: header line, then one line per row. -/
def toCsv (t : Table) : String :=
  String.intercalate "," t.columns ++ "\n"
    ++ String.join (t.rows.map (fun r => Row.renderCells t.columns r ++ "\n"))

/-- The rendered page: the loaded dataframe, the figure shown by
`st.plotly_chart`, and the bytes offered by `st.download_button`. -/
structure Output where
  df : Table
  chart : Chart
  csv : String
deriving DecidableEq

/-- The part of the script after a successful load: select the drug row,
build the derived frame and the figure, and offer
`df.to_csv(index=False)` for download.  `Except.error` models the
uncaught IndexErrors of the two `.iloc`/`.values` accesses. -/
def pageOf (df : Table) (selected_phase : String) (selected_drug : Value) :
    Except String Output :=
  match selectDrugRow df selected_drug with
  | none => Except.error "IndexError: .iloc[0] on empty selection"
  | some drug_row =>
    match buildChart (plot_data drug_row) selected_phase with
    | none => Except.error "IndexError: .values[0] on empty selection"
    | some fig => Except.ok { df := df, chart := fig, csv := toCsv df }

/-- The whole script, top to bottom, for one interaction: load (or
default), validate, then render the page.  `Except.error` carries the
validation stop of `st.stop()` as well as the uncaught IndexErrors. -/
def run (uploaded : Option Table) (selected_phase : String)
    (selected_drug : Value) : Except String Output :=
  match loadTable uploaded with
  | Except.error e => Except.error e
  | Except.ok df => pageOf df selected_phase selected_drug

/-- The page produced with no upload, the "All Phases" selection and the
default drug: the out-of-the-box rendering of the script. -/
def runDefault : Output :=
  ((run none "All Phases" (Value.str "Entresto")).toOption).getD
    { df := defaultDf, chart := Chart.singlePhase 0 0, csv := "" }

/-- The default run succeeds and produces `runDefault`. -/
theorem runDefault_eq :
    run none "All Phases" (Value.str "Entresto") = Except.ok runDefault := by
  rfl

/-- Every element kept by `uniqueFirstAux` comes from the input list. -/
theorem mem_uniqueFirstAux {a : Value} :
    ∀ (seen l : List Value), a ∈ uniqueFirstAux seen l → a ∈ l := by
  intro seen l
  induction l generalizing seen with
  | nil => intro h; simp [uniqueFirstAux] at h
  | cons x xs ih =>
      intro h
      rw [uniqueFirstAux] at h
      by_cases hx : x ∈ seen
      · rw [if_pos hx] at h
        exact List.mem_cons_of_mem _ (ih seen h)
      · rw [if_neg hx] at h
        rcases List.mem_cons.mp h with rfl | h2
        · exact List.mem_cons_self _ _
        · exact List.mem_cons_of_mem _ (ih (x :: seen) h2)

/-- Every element of `uniqueFirst l` is an element of `l`. -/
theorem mem_uniqueFirst {a : Value} (l : List Value)
    (h : a ∈ uniqueFirst l) : a ∈ l :=
  mem_uniqueFirstAux [] l h

/-- C1: for every drug record and every phase of the seven whose
pre-value is nonzero, the derived percent-drop for that phase equals
`(pre - post) / pre * 100`. -/
theorem c1_drop_formula (r : Row) (pr : PlotRow) (hmem : pr ∈ plot_data r)
    (hpre : pr.pre ≠ 0) :
    pr.drop = (pr.pre - pr.post) / pr.pre * 100 := by
  rcases List.mem_map.mp hmem with ⟨phase, _, rfl⟩
  simp only [plot_data] at hpre ⊢
  simp [dropCalc, hpre]

/-- Witness for C1: the Market phase of the built-in Entresto record has
nonzero pre-value 2976 and percent-drop `(2976 - 1782) / 2976 * 100`. -/
theorem c1_drop_formula_witness :
    (⟨"Market", 2976, 1782, dropCalc 2976 1782⟩ : PlotRow) ∈ plot_data entrestoRow ∧
      dropCalc 2976 1782 = ((2976 : ℚ) - 1782) / 2976 * 100 :=
  ⟨List.mem_cons_self _ _,
   c1_drop_formula entrestoRow ⟨"Market", 2976, 1782, dropCalc 2976 1782⟩
     (List.mem_cons_self _ _) (by norm_num)⟩

/-- C2: for every drug record and every phase whose pre-value is 0, the
derived percent-drop equals 0 exactly.  The computation is a total
function on ℚ in this model: it can neither raise a division error nor
produce NaN. -/
theorem c2_zero_pre_drop (r : Row) (pr : PlotRow) (hmem : pr ∈ plot_data r)
    (hpre : pr.pre = 0) : pr.drop = 0 := by
  rcases List.mem_map.mp hmem with ⟨phase, _, rfl⟩
  simp only [plot_data] at hpre ⊢
  simp [dropCalc, hpre]

/-- Witness for C2: a record whose Market pre-value is 0 gets a Market
percent-drop of exactly 0. -/
theorem c2_zero_pre_drop_witness :
    (⟨"Market", 0, 5, dropCalc 0 5⟩ : PlotRow) ∈
        plot_data [("Market_Pre_IRA", Value.num 0), ("Market_Post_IRA", Value.num 5)] ∧
      dropCalc 0 5 = 0 :=
  ⟨List.mem_cons_self _ _,
   c2_zero_pre_drop
     [("Market_Pre_IRA", Value.num 0), ("Market_Post_IRA", Value.num 5)]
     ⟨"Market", 0, 5, dropCalc 0 5⟩ (List.mem_cons_self _ _) (by norm_num)⟩

/-- C7: for the built-in Entresto record, the Market-phase percent-drop
equals `(2976 - 1782) / 2976 * 100` (which is 4975/124 ≈ 40.12). -/
theorem c7_entresto_market_drop :
    ((plot_data entrestoRow).map (fun pr => (pr.phase, pr.drop))).head? =
      some ("Market", ((2976 : ℚ) - 1782) / 2976 * 100) := by
  have h1 : ((plot_data entrestoRow).map (fun pr => (pr.phase, pr.drop))).head? =
      some ("Market", dropCalc 2976 1782) := rfl
  rw [h1]
  norm_num [dropCalc]

/-- C3: an upload missing at least one of the 18 required columns halts
the script with the validation error message: no chart is rendered and
the default record is not used as a fallback (the run produces no
`Output` at all). -/
theorem c3_missing_column_halts (t : Table) (p : String) (d : Value)
    (c : String) (hc : c ∈ expected_columns) (hmiss : c ∉ t.columns) :
    run (some t) p d = Except.error errMsg := by
  cases hall : expected_columns.all (fun col => t.columns.contains col) with
  | false =>
      have hload : loadTable (some t) = Except.error errMsg := by
        simp only [loadTable, hall]
        rfl
      unfold run
      rw [hload]
  | true =>
      exfalso
      have hmem := List.all_eq_true.mp hall c hc
      exact hmiss (by simpa using hmem)

/-- Witness for C3: a one-column upload is missing the required "Drug"
column and is rejected with the validation message. -/
theorem c3_missing_column_halts_witness :
    "Drug" ∈ expected_columns ∧ "Drug" ∉ (Table.mk ["Foo"] []).columns ∧
      run (some (Table.mk ["Foo"] [])) "All Phases" (Value.str "X") =
        Except.error errMsg :=
  ⟨by decide, by decide,
   c3_missing_column_halts (Table.mk ["Foo"] []) "All Phases" (Value.str "X")
     "Drug" (by decide) (by decide)⟩

/-- C9: the upload validation only checks column presence: a table
containing every required column is accepted as-is, extra columns
included, and processing never stops with the validation error. -/
theorem c9_extra_columns_accepted (t : Table)
    (h : ∀ c ∈ expected_columns, c ∈ t.columns) :
    loadTable (some t) = Except.ok t ∧
      ∀ p d, run (some t) p d ≠ Except.error errMsg := by
  have hall : expected_columns.all (fun col => t.columns.contains col) = true := by
    rw [List.all_eq_true]
    intro c hc
    simpa using h c hc
  have hok : loadTable (some t) = Except.ok t := by
    simp only [loadTable, hall]
    rfl
  refine ⟨hok, ?_⟩
  intro p d
  have hrun : run (some t) p d = pageOf t p d := by
    unfold run
    rw [hok]
  rw [hrun]
  unfold pageOf
  split
  · simp [errMsg]
  · split
    · simp [errMsg]
    · simp

/-- Witness for C9: a table with all 18 required columns plus an extra
"Extra" column is accepted unchanged. -/
theorem c9_extra_columns_accepted_witness :
    loadTable (some (Table.mk (expected_columns ++ ["Extra"]) [entrestoRow])) =
        Except.ok (Table.mk (expected_columns ++ ["Extra"]) [entrestoRow]) ∧
      run (some (Table.mk (expected_columns ++ ["Extra"]) [entrestoRow]))
          "All Phases" (Value.str "Entresto") ≠ Except.error errMsg := by
  have h := c9_extra_columns_accepted
    (Table.mk (expected_columns ++ ["Extra"]) [entrestoRow]) (by decide)
  exact ⟨h.1, h.2 "All Phases" (Value.str "Entresto")⟩

/-- C5: the derived comparison table has exactly one row per phase, for
all 7 phases in the fixed order of `phases_order`, and the "All Phases"
chart is built from all 7 rows in that order. -/
theorem c5_all_phases_chart (r : Row) :
    (plot_data r).length = 7 ∧
      (plot_data r).map (fun pr => pr.phase) = phases_order ∧
      phases_order.Nodup ∧
      buildChart (plot_data r) "All Phases" =
        some (Chart.allPhases phases_order
          ((plot_data r).map (fun pr => pr.pre))
          ((plot_data r).map (fun pr => pr.post))
          ((plot_data r).map (fun pr => -pr.drop))) := by
  have hx : (plot_data r).map (fun pr => pr.phase) = phases_order := rfl
  refine ⟨rfl, hx, by decide, ?_⟩
  rw [buildChart, if_pos rfl, hx]

/-- C6: with a single named phase selected, the rendered chart carries
exactly the pre/post pair of that phase. -/
theorem c6_single_phase_chart (r : Row) (phase : String)
    (h : phase ∈ phases_order) :
    buildChart (plot_data r) phase =
      some (Chart.singlePhase (rowPre r phase) (rowPost r phase)) := by
  simp only [phases_order, List.mem_cons, List.not_mem_nil, or_false] at h
  rcases h with rfl | rfl | rfl | rfl | rfl | rfl | rfl <;> rfl

/-- Witness for C6: Market is one of the seven phases, and selecting it
on the default record charts the Market pre/post pair. -/
theorem c6_single_phase_chart_witness :
    "Market" ∈ phases_order ∧
      buildChart (plot_data entrestoRow) "Market" =
        some (Chart.singlePhase (rowPre entrestoRow "Market")
          (rowPost entrestoRow "Market")) :=
  ⟨by decide, c6_single_phase_chart entrestoRow "Market" (by decide)⟩

/-- C4: whenever the script renders a page, the CSV it offers for
download is exactly the serialization of the loaded table, which is
passed from the load step to the export unchanged. -/
theorem c4_csv_echoes_loaded_table (u : Option Table) (p : String)
    (d : Value) (out : Output) (h : run u p d = Except.ok out) :
    loadTable u = Except.ok out.df ∧ out.csv = toCsv out.df := by
  unfold run at h
  split at h
  · simp at h
  · rename_i df heq
    unfold pageOf at h
    split at h
    · simp at h
    · split at h
      · simp at h
      · cases h
        exact ⟨heq, rfl⟩

/-- Witness for C4: on the default run the downloaded CSV is the
serialization of the loaded (default) table. -/
theorem c4_csv_echoes_loaded_table_witness :
    loadTable none = Except.ok runDefault.df ∧
      runDefault.csv = toCsv runDefault.df :=
  c4_csv_echoes_loaded_table none "All Phases" (Value.str "Entresto")
    runDefault runDefault_eq

/-- C8: with no upload the loaded table is exactly the single built-in
Entresto record, and every successful run without an upload filters,
computes and exports from that table. -/
theorem c8_default_entresto :
    loadTable none = Except.ok defaultDf ∧
      defaultDf.rows = [entrestoRow] ∧
      entrestoRow.get "Drug" = Value.str "Entresto" ∧
      ∀ p d out, run none p d = Except.ok out →
        out.df = defaultDf ∧ out.csv = toCsv defaultDf := by
  refine ⟨rfl, rfl, rfl, ?_⟩
  intro p d out h
  have hrun : run none p d = pageOf defaultDf p d := rfl
  rw [hrun] at h
  unfold pageOf at h
  split at h
  · simp at h
  · split at h
    · simp at h
    · cases h
      exact ⟨rfl, rfl⟩

/-- Witness for C8: the out-of-the-box page is rendered from the default
table and exports its serialization. -/
theorem c8_default_entresto_witness :
    runDefault.df = defaultDf ∧ runDefault.csv = toCsv defaultDf :=
  c8_default_entresto.2.2.2 "All Phases" (Value.str "Entresto")
    runDefault runDefault_eq

/-- C10: a drug drawn from the selector options (the distinct entries of
the Drug column of the loaded table) always matches at least one row, so
taking the first matching row succeeds. -/
theorem c10_drug_lookup_succeeds (t : Table) (d : Value)
    (h : d ∈ t.drugOptions) : (selectDrugRow t d).isSome = true := by
  have hd : d ∈ t.rows.map (fun r => r.get "Drug") := mem_uniqueFirst _ h
  rcases List.mem_map.mp hd with ⟨r, hr, hrd⟩
  have hmemf : r ∈ t.rows.filter (fun r => r.get "Drug" = d) := by
    rw [List.mem_filter]
    exact ⟨hr, by simp [hrd]⟩
  unfold selectDrugRow
  cases hf : t.rows.filter (fun r => r.get "Drug" = d) with
  | nil => rw [hf] at hmemf; cases hmemf
  | cons a l => rfl

/-- Witness for C10: "Entresto" is an option of the default table and its
row lookup succeeds. -/
theorem c10_drug_lookup_succeeds_witness :
    Value.str "Entresto" ∈ defaultDf.drugOptions ∧
      (selectDrugRow defaultDf (Value.str "Entresto")).isSome = true :=
  ⟨by decide, c10_drug_lookup_succeeds defaultDf (Value.str "Entresto") (by decide)⟩
